import Mathlib

/-!
Shallow embedding of the product-selection document-generation HTTP handler
(the default export of the API source file).  The handler validates the
request body, loads a docx template, transforms the product data into the
shape the merge engine expects, invokes the merge and builds the response.
External effects (filesystem, zip parsing, engine construction, rendering)
are abstracted into an environment oracle; everything the handler itself
computes is embedded faithfully from the source.
-/

namespace ProductSelection

/-- JS truthiness restricted to an optional string field: undefined (none)
and the empty string are falsy, every other string is truthy. -/
def truthyStr : Option String → Bool
  | none => false
  | some s => s != ""

/-- Models the JS idiom x || d for an optional string x with default d
(the default is taken when the field is absent or the empty string). -/
def strOr (o : Option String) (d : String) : String :=
  match o with
  | none => d
  | some s => if s = "" then d else s

/-- One entry of the request body products array.  Every field is optional
in the incoming JSON; absent fields are none. -/
structure Product where
  category : Option String := none
  code : Option String := none
  description : Option String := none
  manufacturerDescription : Option String := none
  productDetails : Option String := none
  areaDescription : Option String := none
  quantity : Option String := none
  price : Option String := none
  notes : Option String := none
  image : Option String := none
deriving DecidableEq, Repr

/-- The per-product record pushed into a category bucket by the handler.
Field names are the hyphenated template keys: manufacturerDescription is
the key manufacturer-description, productDetails is product-details,
areaDescription is area-description. -/
structure TransformedProduct where
  code : String
  description : String
  manufacturerDescription : String
  productDetails : String
  areaDescription : String
  quantity : String
  price : String
  notes : String
  image : String
deriving DecidableEq, Repr

/-- Per-product field mapping of the handler: every optional field,
including image, is mapped through p.field || (empty string). -/
def transformProduct (p : Product) : TransformedProduct :=
  { code := strOr p.code ""
    description := strOr p.description ""
    manufacturerDescription := strOr p.manufacturerDescription ""
    productDetails := strOr p.productDetails ""
    areaDescription := strOr p.areaDescription ""
    quantity := strOr p.quantity ""
    price := strOr p.price ""
    notes := strOr p.notes ""
    image := strOr p.image "" }

/-- Category resolution of the handler: const cat = p.category || Other. -/
def resolveCat (p : Product) : String :=
  strOr p.category "Other"

/-- The fixed category emission order of the handler. -/
def categoryOrder : List String :=
  ["Kitchen", "Bathroom", "Bedroom", "Living Room", "Laundry", "Balcony", "Other"]

/-- The productsByCategory JS object built by the grouping loop, modelled
as a total function from keys to buckets: looking up a key never written
yields the empty bucket, and each iteration appends the transformed
product to the bucket of its resolved category. -/
def productsByCategory (ps : List Product) : String → List TransformedProduct :=
  ps.foldl
    (fun m p => fun c => if c = resolveCat p then m c ++ [transformProduct p] else m c)
    (fun _ => [])

/-- One element of the categories array handed to the merge engine.
categoryName is the template key category-name. -/
structure CategoryGroup where
  categoryName : String
  products : List TransformedProduct
deriving DecidableEq, Repr

/-- Models String.toUpperCase character by character (the category names
are ASCII, where the two agree). -/
def toUpperStr (s : String) : String :=
  String.mk (s.data.map Char.toUpper)

/-- The categoriesData array: iterate the fixed category order, keep the
categories whose bucket is non-empty, and emit the uppercased name with
the bucket. -/
def categoriesData (ps : List Product) : List CategoryGroup :=
  (categoryOrder.filter fun cat => 0 < (productsByCategory ps cat).length).map
    fun cat => { categoryName := toUpperStr cat, products := productsByCategory ps cat }

lemma productsByCategory_foldl (ps : List Product)
    (m : String → List TransformedProduct) (c : String) :
    ps.foldl
      (fun m p => fun c => if c = resolveCat p then m c ++ [transformProduct p] else m c)
      m c
      = m c ++ (ps.filter fun p => resolveCat p == c).map transformProduct := by
  induction ps generalizing m with
  | nil => simp
  | cons p ps ih =>
    rw [List.foldl_cons, ih]
    by_cases h : resolveCat p = c
    · simp [List.filter_cons, h]
    · have h2 : ¬ c = resolveCat p := fun hc => h hc.symm
      simp [List.filter_cons, h, h2]

/-- The grouping loop is a stable partition: the bucket of a category key
holds exactly the transforms of the products resolving to that key, in
input order. -/
lemma productsByCategory_eq_filter (ps : List Product) (c : String) :
    productsByCategory ps c
      = (ps.filter fun p => resolveCat p == c).map transformProduct := by
  unfold productsByCategory
  rw [productsByCategory_foldl]
  simp

/-- Calendar date used to model the JS Date value at day granularity
(the handler only ever renders year, month and day). -/
structure SimpleDate where
  year : Nat
  month : Nat
  day : Nat
deriving DecidableEq, Repr

/-- Month names of the long en-AU date format. -/
def monthNameEnAU : Nat → String
  | 1 => "January"
  | 2 => "February"
  | 3 => "March"
  | 4 => "April"
  | 5 => "May"
  | 6 => "June"
  | 7 => "July"
  | 8 => "August"
  | 9 => "September"
  | 10 => "October"
  | 11 => "November"
  | 12 => "December"
  | _ => ""

def isLeapYear (y : Nat) : Bool :=
  (y % 4 == 0 && y % 100 != 0) || y % 400 == 0

def daysInMonth (y m : Nat) : Nat :=
  if m = 2 then (if isLeapYear y then 29 else 28)
  else if m = 4 ∨ m = 6 ∨ m = 9 ∨ m = 11 then 30
  else 31

/-- Splits a character list on a separator character; adjacent separators
yield empty fields, as String.split does. -/
def splitOnChar (sep : Char) : List Char → List (List Char)
  | [] => [[]]
  | c :: cs =>
    if c = sep then [] :: splitOnChar sep cs
    else
      match splitOnChar sep cs with
      | [] => [[c]]
      | h :: t => (c :: h) :: t

/-- Value of an all-digit character list read in base ten. -/
def digitsToNat (cs : List Char) : Nat :=
  cs.foldl (fun n c => n * 10 + (c.toNat - 48)) 0

/-- Models the JS Date constructor on ISO calendar-date strings of the form
YYYY-MM-DD, the format the client sends: a well-formed, in-range date
parses to its components, anything else yields an Invalid Date, modelled
as none.  (The platform constructor also accepts further formats; for the
claims only the invalid side matters, and these are exactly the strings
that are Invalid Date in this format family.) -/
def parseJsDate (s : String) : Option SimpleDate :=
  match splitOnChar '-' s.data with
  | [ys, ms, ds] =>
    if ys.length = 4 ∧ ms.length = 2 ∧ ds.length = 2
        ∧ ys.all Char.isDigit ∧ ms.all Char.isDigit ∧ ds.all Char.isDigit then
      let y := digitsToNat ys
      let m := digitsToNat ms
      let d := digitsToNat ds
      if 1 ≤ m ∧ m ≤ 12 ∧ 1 ≤ d ∧ d ≤ daysInMonth y m then some ⟨y, m, d⟩
      else none
    else none
  | _ => none

/-- Long en-AU rendering of a valid date: day, full month name, numeric
year, as in 4 March 2025. -/
def formatEnAU (d : SimpleDate) : String :=
  toString d.day ++ " " ++ monthNameEnAU d.month ++ " " ++ toString d.year

/-- The formatted date of the handler: if the date field is truthy it is
parsed with the Date constructor and rendered en-AU, where an Invalid
Date value renders as the literal Invalid Date; otherwise the current
date is rendered the same way. -/
def formattedDate (date : Option String) (now : SimpleDate) : String :=
  if truthyStr date then
    match parseJsDate ((date.getD "")) with
    | some d => formatEnAU d
    | none => "Invalid Date"
  else formatEnAU now

/-- Value of one character of the base64 alphabet, none for every
character outside it (the decoder skips those, as Buffer.from does). -/
def base64CharVal (c : Char) : Option Nat :=
  if 'A' ≤ c ∧ c ≤ 'Z' then some (c.toNat - 65)
  else if 'a' ≤ c ∧ c ≤ 'z' then some (c.toNat - 97 + 26)
  else if '0' ≤ c ∧ c ≤ '9' then some (c.toNat - 48 + 52)
  else if c = '+' then some 62
  else if c = '/' then some 63
  else none

/-- Packs a run of 6-bit values into bytes, four values to three bytes,
with the shortened trailing groups of unpadded base64. -/
def base64Pack : List Nat → List Nat
  | a :: b :: c :: d :: rest =>
    (a * 4 + b / 16) :: ((b % 16) * 16 + c / 4) :: ((c % 4) * 64 + d) :: base64Pack rest
  | [a, b] => [a * 4 + b / 16]
  | [a, b, c] => [a * 4 + b / 16, (b % 16) * 16 + c / 4]
  | _ => []

/-- Models Buffer.from(s, base64): decode the base64 alphabet characters
of s to bytes, ignoring padding and characters outside the alphabet. -/
def base64Decode (s : String) : List Nat :=
  base64Pack (s.data.filterMap base64CharVal)

/-- Configuration of the image module instance: centered flag, the image
getter from the tag value to image bytes, and the size getter. -/
structure ImageModuleConfig where
  centered : Bool
  getImage : String → List Nat
  getSize : Unit → Nat × Nat

/-- The image module the handler constructs: not centered, tag value
decoded from base64 when truthy and a zero-length buffer otherwise, and
a constant 132 by 132 size. -/
def imageModule : ImageModuleConfig :=
  { centered := false
    getImage := fun tagValue => if tagValue != "" then base64Decode tagValue else []
    getSize := fun _ => (132, 132) }

/-- Whether some product of the request carries a truthy image payload. -/
def hasImages (ps : List Product) : Bool :=
  ps.any fun p => truthyStr p.image

/-- Options passed to the merge engine constructor.  An absent modules
key is modelled as the empty module list. -/
structure DocxOptions where
  paragraphLoop : Bool
  linebreaks : Bool
  delimiters : String × String
  modules : List ImageModuleConfig

/-- The options object the handler builds: paragraph looping and
linebreak conversion on, double-curly delimiters, and the image module
attached exactly when some product has an image. -/
def docxOptions (ps : List Product) : DocxOptions :=
  { paragraphLoop := true
    linebreaks := true
    delimiters := ("\x7b\x7b", "\x7d\x7d")
    modules := if hasImages ps then [imageModule] else [] }

/-- HTTP method of the incoming request. -/
inductive Method
  | POST
  | OPTIONS
  | other (name : String)
deriving DecidableEq, Repr

/-- Shape of the products field of the body: absent (or otherwise falsy),
present but not an array, or an array of products. -/
inductive ProductsField
  | absent
  | notArray
  | arr (l : List Product)
deriving DecidableEq, Repr

/-- Parsed request body.  Absent fields are none; a missing body itself is
modelled at the handler as none, destructured from the empty object. -/
structure RequestBody where
  address : Option String := none
  date : Option String := none
  contactName : Option String := none
  company : Option String := none
  phoneNumber : Option String := none
  email : Option String := none
  products : ProductsField := .absent
deriving DecidableEq, Repr

/-- One entry of the structured error collection the engine can attach to
a render failure (err.properties.errors). -/
structure RenderSubError where
  name : String
  message : String
deriving DecidableEq, Repr

/-- Outcome of invoking doc.render(): success, a failure carrying a
structured error collection (with the top-level message, unused in that
branch), or a failure carrying only a top-level message. -/
inductive RenderResult
  | ok
  | errStructured (errors : List RenderSubError) (message : String)
  | errPlain (message : String)
deriving DecidableEq, Repr

/-- Oracle for the effects outside the handler: existence of the template
at its two candidate paths, the zip parse of the template bytes, the
engine construction, the render outcome, and the current date. -/
structure Env where
  primaryTemplateExists : Bool
  fallbackTemplateExists : Bool
  zipResult : Except String Unit
  docResult : Except String Unit
  renderResult : RenderResult
  now : SimpleDate
deriving Repr

/-- Data handed to doc.setData.  Hyphenated template keys contact-name and
phone-number are the contactName and phoneNumber fields. -/
structure MergeData where
  address : String
  date : String
  contactName : String
  company : String
  phoneNumber : String
  email : String
  categories : List CategoryGroup
deriving DecidableEq, Repr

/-- Observable response of the handler: an empty-body status, a JSON error
body with optional details, or the binary file response, observed through
its status, content type, content disposition and the merge data that
produced the bytes. -/
inductive Response
  | empty (status : Nat)
  | json (status : Nat) (error : String) (details : Option String)
  | file (status : Nat) (contentType : String) (contentDisposition : String)
      (data : MergeData)
deriving DecidableEq, Repr

/-- MIME type of the response on success. -/
def wordMime : String :=
  "application/vnd.openxmlformats-officedocument.wordprocessingml.document"

/-- Whitespace class of the JS regex backslash-s on the ASCII range. -/
def isJsWhitespace (c : Char) : Bool :=
  c == ' ' || c == '\t' || c == '\n' || c == '\r' || c == '\x0b' || c == '\x0c'

/-- Replaces each maximal whitespace run by one underscore; the Bool flag
records whether the previous character was part of a run. -/
def collapseWs : Bool → List Char → List Char
  | _, [] => []
  | prevWs, c :: cs =>
    if isJsWhitespace c then
      if prevWs then collapseWs true cs else '_' :: collapseWs true cs
    else c :: collapseWs false cs

/-- Models address.replace of the whitespace-run regex by an underscore. -/
def replaceWsRuns (s : String) : String :=
  String.mk (collapseWs false s.data)

/-- The content-disposition header value built on success. -/
def contentDispositionFor (address : String) : String :=
  "attachment; filename=\"Product_Selection_" ++ replaceWsRuns address ++ ".docx\""

/-- Pipeline stages after validation succeeded: template lookup, zip
parse, engine construction, render, response building.  The catch-all
500 of the outer try block is unreachable here because every failure of
the oracle is already mapped to its specific response. -/
def afterValidation (env : Env) (b : RequestBody) (address : String)
    (products : List Product) : Response :=
  if !env.primaryTemplateExists && !env.fallbackTemplateExists then
    .json 500 "Template file not found" none
  else
    match env.zipResult with
    | .error msg => .json 500 "Template file is corrupted" (some msg)
    | .ok _ =>
      match env.docResult with
      | .error msg => .json 500 "Template structure invalid" (some msg)
      | .ok _ =>
        match env.renderResult with
        | .errStructured errors _ =>
          .json 500 "Template rendering failed"
            (some (String.intercalate "; "
              (errors.map fun e => e.name ++ ": " ++ e.message)))
        | .errPlain msg => .json 500 "Render failed" (some msg)
        | .ok =>
          .file 200 wordMime (contentDispositionFor address)
            { address := address
              date := formattedDate b.date env.now
              contactName := strOr b.contactName ""
              company := strOr b.company ""
              phoneNumber := strOr b.phoneNumber ""
              email := strOr b.email ""
              categories := categoriesData products }

/-- The request handler: CORS preflight and method gate, then the address
and products validations, then the pipeline. -/
def handler (env : Env) (method : Method) (body : Option RequestBody) : Response :=
  if method = .OPTIONS then .empty 200
  else if method ≠ .POST then .json 405 "Method not allowed" none
  else
    let b := body.getD {}
    if !truthyStr b.address then .json 400 "Address is required" none
    else
      match b.products with
      | .arr l =>
        if l.length = 0 then .json 400 "At least one product is required" none
        else afterValidation env b (b.address.getD "") l
      | _ => .json 400 "At least one product is required" none

lemma truthyStr_true_iff (o : Option String) :
    truthyStr o = true ↔ o ≠ none ∧ o ≠ some "" := by
  cases o with
  | none => simp [truthyStr]
  | some s => simp [truthyStr]

lemma truthyStr_false_iff (o : Option String) :
    truthyStr o = false ↔ (o = none ∨ o = some "") := by
  cases o with
  | none => simp [truthyStr]
  | some s => simp [truthyStr]

lemma bucket_nonempty_iff (ps : List Product) (c : String) :
    0 < (productsByCategory ps c).length ↔ (ps.any fun p => resolveCat p == c) = true := by
  rw [productsByCategory_eq_filter]
  simp [List.length_pos, List.any_eq_true, List.filter_eq_nil_iff]

/-- Every JSON response of the pipeline after validation has status 500. -/
lemma afterValidation_json_500 (env : Env) (b : RequestBody) (a : String)
    (l : List Product) (s : Nat) (e : String) (d : Option String)
    (h : afterValidation env b a l = .json s e d) : s = 500 := by
  unfold afterValidation at h
  split at h
  · exact (Response.json.inj h).1.symm
  · rcases hz : env.zipResult with msg | u <;> rw [hz] at h
    · exact (Response.json.inj h).1.symm
    · rcases hd : env.docResult with msg | u2 <;> rw [hd] at h
      · exact (Response.json.inj h).1.symm
      · rcases hr : env.renderResult with _ | ⟨errors, msg⟩ | msg <;> rw [hr] at h
        · exact absurd h (by simp)
        · exact (Response.json.inj h).1.symm
        · exact (Response.json.inj h).1.symm

/-- The handler answers the missing-address 400 exactly on a falsy
address. -/
lemma handler_addr400_iff (env : Env) (body : Option RequestBody) :
    handler env .POST body = .json 400 "Address is required" none
      ↔ ((body.getD {}).address = none ∨ (body.getD {}).address = some "") := by
  constructor
  · intro h
    by_cases ht : truthyStr (body.getD {}).address = true
    · exfalso
      simp only [handler, reduceIte, ht] at h
      rcases hp : (body.getD {}).products with _ | _ | l <;> rw [hp] at h <;>
        simp only [] at h
      · exact absurd (Response.json.inj h).2.1 (by decide)
      · exact absurd (Response.json.inj h).2.1 (by decide)
      · by_cases hl : l.length = 0
        · rw [if_pos hl] at h
          exact absurd (Response.json.inj h).2.1 (by decide)
        · rw [if_neg hl] at h
          exact absurd (afterValidation_json_500 _ _ _ _ _ _ _ h) (by decide)
    · exact (truthyStr_false_iff _).mp (Bool.not_eq_true _ ▸ ht)
  · intro h
    have ht : truthyStr (body.getD {}).address = false := (truthyStr_false_iff _).mpr h
    simp [handler, ht]

/-- Full characterization of the success path of the handler. -/
lemma handler_success (env : Env) (body : Option RequestBody) (addr : String)
    (l : List Product)
    (haddr : (body.getD {}).address = some addr)
    (hne : addr ≠ "")
    (hprod : (body.getD {}).products = ProductsField.arr l)
    (hl : l ≠ [])
    (htmpl : env.primaryTemplateExists = true ∨ env.fallbackTemplateExists = true)
    (hzip : env.zipResult = .ok ())
    (hdoc : env.docResult = .ok ())
    (hrender : env.renderResult = .ok) :
    handler env .POST body
      = .file 200 wordMime (contentDispositionFor addr)
          { address := addr
            date := formattedDate (body.getD {}).date env.now
            contactName := strOr (body.getD {}).contactName ""
            company := strOr (body.getD {}).company ""
            phoneNumber := strOr (body.getD {}).phoneNumber ""
            email := strOr (body.getD {}).email ""
            categories := categoriesData l } := by
  have ht : truthyStr (body.getD {}).address = true := by
    rw [haddr]; simp [truthyStr, hne]
  have hlen : ¬ l.length = 0 := by simpa [List.length_eq_zero] using hl
  have htc : (!env.primaryTemplateExists && !env.fallbackTemplateExists) = false := by
    rcases htmpl with h | h <;> simp [h]
  simp only [handler, reduceIte, ht, hprod, if_neg hlen]
  unfold afterValidation
  rw [htc, hzip, hdoc, hrender, haddr]
  simp

/-- The emitted category names are the uppercased names of the fixed
order whose bucket is inhabited. -/
lemma categoriesData_names (ps : List Product) :
    (categoriesData ps).map (fun g => g.categoryName)
      = (categoryOrder.filter fun c => ps.any fun p => resolveCat p == c).map toUpperStr := by
  have h1 : ∀ c, (decide (0 < (productsByCategory ps c).length))
      = (ps.any fun p => resolveCat p == c) := by
    intro c
    rcases h : ps.any fun p => resolveCat p == c
    · simp [decide_eq_false_iff_not, bucket_nonempty_iff, h]
    · simp [decide_eq_true_eq, bucket_nonempty_iff, h]
  unfold categoriesData
  rw [List.map_map, List.filter_congr (fun c _ => h1 c)]
  rfl

/-- A bucket of a recognized category is unchanged when the products of
unrecognized categories are removed from the input. -/
lemma bucket_filter_recognized (ps : List Product) (c : String) (hc : c ∈ categoryOrder) :
    productsByCategory (ps.filter fun p => decide (resolveCat p ∈ categoryOrder)) c
      = productsByCategory ps c := by
  rw [productsByCategory_eq_filter, productsByCategory_eq_filter, List.filter_filter]
  have h : ∀ p ∈ ps,
      ((resolveCat p == c) && decide (resolveCat p ∈ categoryOrder)) = (resolveCat p == c) := by
    intro p _
    by_cases h : resolveCat p = c
    · simp [h, hc]
    · simp [h]
  rw [List.filter_congr h]

/-- Removing every product of unrecognized category leaves the emitted
categories data unchanged: those products never surface in the output. -/
lemma categoriesData_drop_unrecognized (ps : List Product) :
    categoriesData (ps.filter fun p => decide (resolveCat p ∈ categoryOrder))
      = categoriesData ps := by
  have hb : ∀ c ∈ categoryOrder,
      productsByCategory (ps.filter fun p => decide (resolveCat p ∈ categoryOrder)) c
        = productsByCategory ps c :=
    fun c hc => bucket_filter_recognized ps c hc
  unfold categoriesData
  have hf : List.filter
        (fun cat => decide (0 <
          (productsByCategory (ps.filter fun p => decide (resolveCat p ∈ categoryOrder)) cat).length))
        categoryOrder
      = List.filter (fun cat => decide (0 < (productsByCategory ps cat).length)) categoryOrder := by
    apply List.filter_congr
    intro c hc
    rw [hb c hc]
  rw [hf]
  apply List.map_congr_left
  intro c hc
  rw [hb c (List.mem_of_mem_filter hc)]

/-- Concrete environment in which every external effect succeeds. -/
def env0 : Env :=
  { primaryTemplateExists := true
    fallbackTemplateExists := false
    zipResult := .ok ()
    docResult := .ok ()
    renderResult := .ok
    now := ⟨2025, 3, 4⟩ }

/-- Concrete product fixtures. -/
def exK1 : Product := { category := some "Kitchen", code := some "K1" }

def exB1 : Product := { category := some "Bathroom", code := some "B1" }

def exB2 : Product := { category := some "Bathroom", code := some "B2" }

def pUnknown : Product := { category := some "Unknown" }

def pBare : Product := {}

def pImg : Product := { image := some "QUJD" }

/-- C1 counterexample: a product with the unrecognized category Unknown
resolves to the literal bucket key Unknown, and the emitted categories
data is empty: the product does not appear under an OTHER heading, it is
dropped. -/
theorem unknownCategoryDropped_cex :
    pUnknown.category = some "Unknown"
    ∧ resolveCat pUnknown = "Unknown"
    ∧ categoriesData [pUnknown] = []
    ∧ ¬ ∃ g ∈ categoriesData [pUnknown], g.categoryName = "OTHER" := by
  decide

/-- C1 (amended): only an absent or empty category string (or the literal
Other) resolves to the Other bucket; a non-empty unrecognized category
string keeps that string as its bucket key.  Every emitted heading is an
uppercased name of the fixed enumeration, and removing all products of
unrecognized categories leaves the emitted categories data unchanged:
such products are silently dropped from the output. -/
theorem unknownCategoryBucketed (ps : List Product) :
    (∀ p : Product, resolveCat p = "Other" ↔
        (p.category = none ∨ p.category = some "" ∨ p.category = some "Other"))
    ∧ (∀ g ∈ categoriesData ps, g.categoryName ∈ categoryOrder.map toUpperStr)
    ∧ categoriesData (ps.filter fun p => decide (resolveCat p ∈ categoryOrder))
        = categoriesData ps := by
  refine ⟨?_, ?_, categoriesData_drop_unrecognized ps⟩
  · intro p
    rcases hp : p.category with _ | s
    · simp [resolveCat, strOr, hp]
    · by_cases hs : s = "" <;> simp [resolveCat, strOr, hp, hs]
  · intro g hg
    unfold categoriesData at hg
    rcases List.mem_map.mp hg with ⟨c, hc, rfl⟩
    exact List.mem_map_of_mem _ (List.mem_of_mem_filter hc)

theorem unknownCategoryBucketed_witness :
    resolveCat pBare = "Other"
    ∧ ({ categoryName := "BATHROOM", products := [transformProduct exB1] }
        : CategoryGroup).categoryName ∈ categoryOrder.map toUpperStr :=
  ⟨((unknownCategoryBucketed []).1 pBare).mpr (Or.inl rfl),
   (unknownCategoryBucketed [exB1]).2.1
     { categoryName := "BATHROOM", products := [transformProduct exB1] } (by decide)⟩

/-- C2 counterexample: a product whose image field is absent is mapped to
the empty string, which is a zero-length string, not a marker distinct
from one. -/
theorem absentImageEmptyString_cex :
    pBare.image = none ∧ (transformProduct pBare).image = "" := by
  decide

/-- C2 (amended): every absent optional string field of a product,
including image, maps to the empty string in the transformed record. -/
theorem absentFieldsDefaultEmpty (p : Product) :
    (p.code = none → (transformProduct p).code = "")
    ∧ (p.description = none → (transformProduct p).description = "")
    ∧ (p.manufacturerDescription = none → (transformProduct p).manufacturerDescription = "")
    ∧ (p.productDetails = none → (transformProduct p).productDetails = "")
    ∧ (p.areaDescription = none → (transformProduct p).areaDescription = "")
    ∧ (p.quantity = none → (transformProduct p).quantity = "")
    ∧ (p.price = none → (transformProduct p).price = "")
    ∧ (p.notes = none → (transformProduct p).notes = "")
    ∧ (p.image = none → (transformProduct p).image = "") := by
  refine ⟨?_, ?_, ?_, ?_, ?_, ?_, ?_, ?_, ?_⟩ <;>
    (intro h; simp only [transformProduct, strOr, h])

theorem absentFieldsDefaultEmpty_witness :
    (transformProduct pBare).code = "" ∧ (transformProduct pBare).image = "" :=
  ⟨(absentFieldsDefaultEmpty pBare).1 rfl,
   (absentFieldsDefaultEmpty pBare).2.2.2.2.2.2.2.2 rfl⟩

/-- C3: the emitted category headings follow the fixed enumeration order
whatever the input order, a category with an empty bucket is omitted,
each bucket preserves the relative input order of its products, and the
Bathroom-Kitchen-Bathroom example yields Kitchen then Bathroom with both
Bathroom items in input order. -/
theorem fixedOrderStableGrouping (ps : List Product) :
    ((categoriesData ps).map fun g => g.categoryName)
        = (categoryOrder.filter fun c => ps.any fun p => resolveCat p == c).map toUpperStr
    ∧ (∀ g ∈ categoriesData ps, g.products ≠ [])
    ∧ (∀ c, productsByCategory ps c
        = (ps.filter fun p => resolveCat p == c).map transformProduct)
    ∧ categoriesData [exB1, exK1, exB2]
        = [{ categoryName := "KITCHEN", products := [transformProduct exK1] },
           { categoryName := "BATHROOM",
             products := [transformProduct exB1, transformProduct exB2] }] := by
  refine ⟨categoriesData_names ps, ?_, productsByCategory_eq_filter ps, by decide⟩
  intro g hg
  unfold categoriesData at hg
  rcases List.mem_map.mp hg with ⟨c, hc, rfl⟩
  have h2 := List.of_mem_filter hc
  simp only [decide_eq_true_eq] at h2
  intro hnil
  have hnil2 : productsByCategory ps c = [] := hnil
  rw [hnil2] at h2
  simp at h2

theorem fixedOrderStableGrouping_witness :
    ({ categoryName := "KITCHEN", products := [transformProduct exK1] }
      : CategoryGroup).products ≠ [] :=
  (fixedOrderStableGrouping [exK1]).2.1
    { categoryName := "KITCHEN", products := [transformProduct exK1] } (by decide)

/-- C4: on a POST request the handler answers status 400 with error
Address is required exactly when the address field is absent or the
empty string. -/
theorem addressRequired400 (env : Env) (body : Option RequestBody) :
    handler env .POST body = .json 400 "Address is required" none
      ↔ ((body.getD {}).address = none ∨ (body.getD {}).address = some "") :=
  handler_addr400_iff env body

theorem addressRequired400_witness :
    handler env0 .POST (some {}) = .json 400 "Address is required" none :=
  (addressRequired400 env0 (some {})).mpr (Or.inl rfl)

/-- C5: on a POST request with truthy address the handler answers status
400 with error At least one product is required exactly when the
products field is absent, not an array, or the empty array. -/
theorem productsRequired400 (env : Env) (body : Option RequestBody)
    (haddr : truthyStr (body.getD {}).address = true) :
    handler env .POST body = .json 400 "At least one product is required" none
      ↔ ((body.getD {}).products = .absent ∨ (body.getD {}).products = .notArray
          ∨ (body.getD {}).products = .arr []) := by
  constructor
  · intro h
    simp only [handler, reduceIte, haddr] at h
    rcases hp : (body.getD {}).products with _ | _ | l <;> rw [hp] at h <;>
      simp only [] at h
    · exact Or.inl rfl
    · exact Or.inr (Or.inl rfl)
    · by_cases hl : l.length = 0
      · rw [List.length_eq_zero] at hl
        exact Or.inr (Or.inr (by rw [hl]))
      · rw [if_neg hl] at h
        exact absurd (afterValidation_json_500 _ _ _ _ _ _ _ h) (by decide)
  · intro h
    rcases h with h | h | h <;> simp [handler, haddr, h]

theorem productsRequired400_witness :
    handler env0 .POST (some { address := some "12 Smith St" })
      = .json 400 "At least one product is required" none :=
  (productsRequired400 env0 (some { address := some "12 Smith St" }) (by decide)).mpr
    (Or.inl rfl)

/-- Concrete bodies used by the witnesses. -/
def body1 : RequestBody :=
  { address := some "12 Smith St", date := some "2025-03-04", products := .arr [exK1] }

def bodyInv : RequestBody :=
  { address := some "12 Smith St", date := some "not-a-date", products := .arr [exK1] }

def bodyWs : RequestBody :=
  { address := some " ", products := .arr [exK1] }

def envR : Env :=
  { env0 with
    renderResult := .errStructured
      [⟨"TemplateError", "Unclosed tag"⟩, ⟨"TemplateError", "Unopened tag"⟩] "Multi error" }

/-- When both validations pass, the handler is the pipeline after
validation. -/
lemma handler_reaches_pipeline (env : Env) (body : Option RequestBody) (addr : String)
    (l : List Product)
    (haddr : (body.getD {}).address = some addr)
    (hne : addr ≠ "")
    (hprod : (body.getD {}).products = ProductsField.arr l)
    (hl : l ≠ []) :
    handler env .POST body = afterValidation env (body.getD {}) addr l := by
  have ht : truthyStr (body.getD {}).address = true := by
    rw [haddr]; simp [truthyStr, hne]
  have hlen : ¬ l.length = 0 := by simpa [List.length_eq_zero] using hl
  simp only [handler, reduceIte, ht, hprod, if_neg hlen, haddr, Option.getD_some]
  simp [truthyStr, hne]

/-- C6: on the success path the handler answers status 200, the
Word-processing MIME type, and an attachment filename of
Product_Selection_ followed by the address with whitespace runs replaced
by underscores and the .docx extension. -/
theorem successFileResponse (env : Env) (body : Option RequestBody) (addr : String)
    (l : List Product)
    (haddr : (body.getD {}).address = some addr)
    (hne : addr ≠ "")
    (hprod : (body.getD {}).products = ProductsField.arr l)
    (hl : l ≠ [])
    (htmpl : env.primaryTemplateExists = true ∨ env.fallbackTemplateExists = true)
    (hzip : env.zipResult = .ok ())
    (hdoc : env.docResult = .ok ())
    (hrender : env.renderResult = .ok) :
    handler env .POST body
      = .file 200 wordMime
          ("attachment; filename=\"Product_Selection_" ++ replaceWsRuns addr ++ ".docx\"")
          { address := addr
            date := formattedDate (body.getD {}).date env.now
            contactName := strOr (body.getD {}).contactName ""
            company := strOr (body.getD {}).company ""
            phoneNumber := strOr (body.getD {}).phoneNumber ""
            email := strOr (body.getD {}).email ""
            categories := categoriesData l } :=
  handler_success env body addr l haddr hne hprod hl htmpl hzip hdoc hrender

theorem successFileResponse_witness :
    handler env0 .POST (some body1)
      = .file 200 wordMime "attachment; filename=\"Product_Selection_12_Smith_St.docx\""
          { address := "12 Smith St", date := "4 March 2025", contactName := "",
            company := "", phoneNumber := "", email := "",
            categories := [{ categoryName := "KITCHEN",
                             products := [transformProduct exK1] }] } := by
  have h := successFileResponse env0 (some body1) "12 Smith St" [exK1] rfl (by decide) rfl
    (by decide) (Or.inl rfl) rfl rfl rfl
  rw [h]
  decide

/-- C7: when rendering fails with a structured error collection, the 500
details are the sub-errors rendered name colon message and joined by a
semicolon separator; otherwise the 500 details are the single top-level
message. -/
theorem renderFailure500 (env : Env) (body : Option RequestBody) (addr : String)
    (l : List Product)
    (haddr : (body.getD {}).address = some addr)
    (hne : addr ≠ "")
    (hprod : (body.getD {}).products = ProductsField.arr l)
    (hl : l ≠ [])
    (htmpl : env.primaryTemplateExists = true ∨ env.fallbackTemplateExists = true)
    (hzip : env.zipResult = .ok ())
    (hdoc : env.docResult = .ok ()) :
    (∀ (errors : List RenderSubError) (msg : String),
        env.renderResult = .errStructured errors msg →
        handler env .POST body = .json 500 "Template rendering failed"
          (some (String.intercalate "; "
            (errors.map fun e => e.name ++ ": " ++ e.message))))
    ∧ (∀ msg : String, env.renderResult = .errPlain msg →
        handler env .POST body = .json 500 "Render failed" (some msg)) := by
  have hpipe := handler_reaches_pipeline env body addr l haddr hne hprod hl
  have htc : (!env.primaryTemplateExists && !env.fallbackTemplateExists) = false := by
    rcases htmpl with h | h <;> simp [h]
  constructor
  · intro errors msg hr
    rw [hpipe]
    unfold afterValidation
    simp [htc, hzip, hdoc, hr]
  · intro msg hr
    rw [hpipe]
    unfold afterValidation
    simp [htc, hzip, hdoc, hr]

theorem renderFailure500_witness :
    handler envR .POST (some body1)
      = .json 500 "Template rendering failed"
          (some "TemplateError: Unclosed tag; TemplateError: Unopened tag") := by
  have h := (renderFailure500 envR (some body1) "12 Smith St" [exK1] rfl (by decide) rfl
      (by decide) (Or.inl rfl) rfl rfl).1
    [⟨"TemplateError", "Unclosed tag"⟩, ⟨"TemplateError", "Unopened tag"⟩] "Multi error" rfl
  rw [h]
  decide

/-- C8: the image module is attached to the engine options exactly when
some product carries a truthy image payload; when attached, its image
getter decodes a non-empty base64 payload to bytes and substitutes the
zero-length buffer for the empty payload, and its size getter always
answers 132 by 132. -/
theorem imageModuleBehavior (ps : List Product) :
    ((docxOptions ps).modules = [imageModule] ↔ hasImages ps = true)
    ∧ ((docxOptions ps).modules = [] ↔ hasImages ps = false)
    ∧ (hasImages ps = true ↔ ∃ p ∈ ps, p.image ≠ none ∧ p.image ≠ some "")
    ∧ (∀ s : String, s ≠ "" → imageModule.getImage s = base64Decode s)
    ∧ imageModule.getImage "" = []
    ∧ (∀ u : Unit, imageModule.getSize u = (132, 132)) := by
  refine ⟨?_, ?_, ?_, ?_, by decide, fun u => rfl⟩
  · cases h : hasImages ps <;> simp [docxOptions, h]
  · cases h : hasImages ps <;> simp [docxOptions, h]
  · rw [hasImages, List.any_eq_true]
    constructor
    · rintro ⟨p, hp, ht⟩
      exact ⟨p, hp, (truthyStr_true_iff _).mp ht⟩
    · rintro ⟨p, hp, h1, h2⟩
      exact ⟨p, hp, (truthyStr_true_iff _).mpr ⟨h1, h2⟩⟩
  · intro s hs
    simp [imageModule, hs]

theorem imageModuleBehavior_witness :
    (docxOptions [pImg]).modules = [imageModule]
    ∧ imageModule.getImage "QUJD" = base64Decode "QUJD"
    ∧ base64Decode "QUJD" = [65, 66, 67]
    ∧ imageModule.getSize () = (132, 132) :=
  ⟨((imageModuleBehavior [pImg]).1).mpr (by decide),
   (imageModuleBehavior [pImg]).2.2.2.1 "QUJD" (by decide),
   by decide,
   (imageModuleBehavior [pImg]).2.2.2.2.2 ()⟩

/-- C9: a truthy date string that fails to parse renders as the literal
Invalid Date, independent of the current date, and the handler succeeds
anyway, injecting that literal into the merge data. -/
theorem invalidDateLiteral (env : Env) (body : Option RequestBody) (addr : String)
    (l : List Product) (d : String)
    (hdate : (body.getD {}).date = some d)
    (hd : d ≠ "")
    (hparse : parseJsDate d = none)
    (haddr : (body.getD {}).address = some addr)
    (hne : addr ≠ "")
    (hprod : (body.getD {}).products = ProductsField.arr l)
    (hl : l ≠ [])
    (htmpl : env.primaryTemplateExists = true ∨ env.fallbackTemplateExists = true)
    (hzip : env.zipResult = .ok ())
    (hdoc : env.docResult = .ok ())
    (hrender : env.renderResult = .ok) :
    (∀ now : SimpleDate, formattedDate (some d) now = "Invalid Date")
    ∧ handler env .POST body
      = .file 200 wordMime (contentDispositionFor addr)
          { address := addr
            date := "Invalid Date"
            contactName := strOr (body.getD {}).contactName ""
            company := strOr (body.getD {}).company ""
            phoneNumber := strOr (body.getD {}).phoneNumber ""
            email := strOr (body.getD {}).email ""
            categories := categoriesData l } := by
  have hfmt : ∀ now : SimpleDate, formattedDate (some d) now = "Invalid Date" := by
    intro now
    simp [formattedDate, truthyStr, hd, hparse]
  refine ⟨hfmt, ?_⟩
  rw [handler_success env body addr l haddr hne hprod hl htmpl hzip hdoc hrender,
    hdate, hfmt env.now]

theorem invalidDateLiteral_witness :
    handler env0 .POST (some bodyInv)
      = .file 200 wordMime (contentDispositionFor "12 Smith St")
          { address := "12 Smith St", date := "Invalid Date", contactName := "",
            company := "", phoneNumber := "", email := "",
            categories := categoriesData [exK1] } :=
  (invalidDateLiteral env0 (some bodyInv) "12 Smith St" [exK1] "not-a-date" rfl (by decide)
    (by decide) rfl (by decide) rfl (by decide) (Or.inl rfl) rfl rfl rfl).2

/-- C10: validation accepts every non-empty address, whitespace-only ones
included, and a whitespace-only address produces the success response
whose filename collapses the whitespace run to a single underscore. -/
theorem whitespaceAddressAccepted :
    (∀ (env : Env) (body : Option RequestBody) (s : String),
        (body.getD {}).address = some s → s ≠ "" →
        handler env .POST body ≠ .json 400 "Address is required" none)
    ∧ contentDispositionFor " " = "attachment; filename=\"Product_Selection__.docx\""
    ∧ handler env0 .POST (some bodyWs)
        = .file 200 wordMime "attachment; filename=\"Product_Selection__.docx\""
            { address := " ", date := formatEnAU env0.now, contactName := "", company := "",
              phoneNumber := "", email := "", categories := categoriesData [exK1] } := by
  refine ⟨?_, by decide, ?_⟩
  · intro env body s hs hne h
    rcases (handler_addr400_iff env body).mp h with h2 | h2
    · rw [hs] at h2
      exact Option.noConfusion h2
    · rw [hs] at h2
      exact hne (Option.some.inj h2)
  · have h := handler_success env0 (some bodyWs) " " [exK1] rfl (by decide) rfl (by decide)
      (Or.inl rfl) rfl rfl rfl
    rw [h]
    decide

theorem whitespaceAddressAccepted_witness :
    handler env0 .POST (some bodyWs) ≠ .json 400 "Address is required" none :=
  whitespaceAddressAccepted.1 env0 (some bodyWs) " " rfl (by decide)

end ProductSelection
